import Mathlib

/-!
Verification of the AI-Voice-Note-Summarizer backend pipeline and frontend
submit logic, as a shallow embedding of `src/frontend/src/App.js` (which
contains the React component `App` and the Express backend `index.js`).

The backend handler for `POST /api/transcribe-and-summarize` is modelled as a
pure function of the request together with an environment describing what the
two external capabilities (AssemblyAI transcription, OpenRouter chat
completion) and the `JSON.parse` builtin do on this request.  The handler
returns the HTTP response it sends plus a record of its observable effects
(outbound call counts, the completion request it built, whether the staged
temp file was unlinked).
-/

namespace VoiceNote

/-- JSON values: the wire representation of request/response bodies.
Numbers are modelled as integers; no claim involves numeric payloads. -/
inductive Json where
  | null
  | bool (b : Bool)
  | num (n : Int)
  | str (s : String)
  | arr (elems : List Json)
  | obj (fields : List (String × Json))

/-- Field lookup on a JSON object (`undefined`, i.e. `none`, otherwise). -/
def Json.getField : Json → String → Option Json
  | Json.obj fields, k => fields.lookup k
  | _, _ => none

/-- JS truthiness on the JSON values that can appear here:
`""`, `0`, `null`, `false` are falsy. -/
def jsFalsy : Json → Bool
  | Json.null => true
  | Json.bool b => !b
  | Json.num n => n == 0
  | Json.str s => s == ""
  | Json.arr _ => false
  | Json.obj _ => false

/-- The file object multer attaches as `req.file` when the `audio` field is
present (only the `path` member is used by the handler). -/
structure UploadedFile where
  path : String

/-- The incoming request: `req.file` is `undefined` (`none`) when the
multipart body had no `audio` field. -/
structure Request where
  file : Option UploadedFile

/-- Outcome of `aai.transcripts.transcribe({ audio: audioData })`:
either the SDK call throws, or it resolves to a transcript object whose
`text` member may be absent (`none`) or any string. -/
inductive TranscribeOutcome where
  | throw (msg : String)
  | ok (text : Option String)

/-- One chat message of the completion request body. -/
structure ChatMessage where
  role : String
  content : String

/-- The body the handler posts to the completion endpoint. -/
structure ChatRequest where
  model : String
  messages : List ChatMessage

/-- Models the message object of a completion choice; `content` may be absent. -/
structure Message where
  content : Option String

/-- One element of `data.choices`; `message` may be absent. -/
structure Choice where
  message : Option Message

/-- The `data` of a successful completion response. -/
structure CompletionData where
  choices : List Choice

/-- Outcome of `axios.post(...)` to the completion endpoint:
success with a data payload; an HTTP error (axios throws an error whose
`response` carries the upstream status and body); or a transport error
(axios throws an error with no `response`). -/
inductive CompleteOutcome where
  | ok (data : CompletionData)
  | httpError (status : Nat) (body : Json) (msg : String)
  | transportError (msg : String)

/-- Environment of one handler invocation: the `JSON.parse` builtin
(`some` = parsed value, `none` = it throws a SyntaxError) and the behaviour
of the two outbound capabilities on this request. -/
structure Env where
  parse : String → Option Json
  transcribe : TranscribeOutcome
  complete : CompleteOutcome

/-- The HTTP response the handler sends. -/
structure HttpResponse where
  status : Nat
  body : Json

/-- Observable effects of one handler invocation. -/
structure Effects where
  transcribeCalls : Nat
  completionCalls : Nat
  completionRequest : Option ChatRequest
  unlinked : Bool

/-- Response plus effects. -/
structure HandlerResult where
  response : HttpResponse
  effects : Effects

/-- A thrown JS error as seen by the catch block: its `message` and, for
axios HTTP errors, its `response` carrying `(status, data)`. -/
structure JsError where
  message : String
  response : Option (Nat × Json)

/-- Models the expression `error.response?.data || error.message || "Something went wrong"` of the catch block. -/
def envelopeValue (e : JsError) : Json :=
  match e.response with
  | some (_, data) =>
    if jsFalsy data then
      if e.message == "" then Json.str "Something went wrong" else Json.str e.message
    else data
  | none =>
    if e.message == "" then Json.str "Something went wrong" else Json.str e.message

/-- Models `res.status(500).json` with an error field in the catch block. -/
def errorResponse (e : JsError) : HttpResponse :=
  { status := 500, body := Json.obj [("error", envelopeValue e)] }

/-- Models the guard `!transcript.text`: JS falsy test on the optional transcript text
(true for an absent field and for the empty string). -/
def textFalsy : Option String → Bool
  | none => true
  | some s => s == ""

/-- The fixed system instruction (line 303 of the source). -/
def systemPrompt : String :=
  "You are a helpful assistant that summarizes voice notes into key points and action items."

/-- Text of the user template literal before the interpolated transcript. -/
def promptHead : String :=
  "\nHere is a voice note transcript:\n\n\x22"

/-- Text of the user template literal after the interpolated transcript. -/
def promptTail : String :=
  "\x22\n\nReturn ONLY valid JSON (no backticks, no markdown) with this exact shape:\n\x7b\n  \x22key_points\x22: [\x22point 1\x22, \x22point 2\x22, ...],\n  \x22action_items\x22: [\x22item 1\x22, \x22item 2\x22, ...]\n\x7d\n"

/-- The user message: the transcript embedded unchanged in the template. -/
def userPrompt (transcriptText : String) : String :=
  promptHead ++ transcriptText ++ promptTail

/-- The completion request body built at lines 295-321 of the source. -/
def chatRequest (transcriptText : String) : ChatRequest :=
  { model := "nex-agi/deepseek-v3.1-nex-n1:free"
  , messages :=
      [ { role := "system", content := systemPrompt }
      , { role := "user", content := userPrompt transcriptText } ] }

/-- Models the access chain `openrouterResponse.data.choices[0].message.content`: it throws a
TypeError when `choices[0]` or its `message` is `undefined`; otherwise it
yields `message.content`, itself possibly `undefined`. -/
def extractRawSummary (d : CompletionData) : Except String (Option String) :=
  match d.choices with
  | [] => Except.error "Cannot read properties of undefined (reading message)"
  | c :: _ =>
    match c.message with
    | none => Except.error "Cannot read properties of undefined (reading content)"
    | some m => Except.ok m.content

/-- How `rawSummary` appears inside `res.json` output: `undefined` becomes
`null` when serialized inside an array. -/
def rawJson : Option String → Json
  | none => Json.null
  | some s => Json.str s

/-- The fallback of the inner catch: `{ key_points: [rawSummary], action_items: [] }`. -/
def fallbackSummary (raw : Option String) : Json :=
  Json.obj [("key_points", Json.arr [rawJson raw]), ("action_items", Json.arr [])]

/-- The parse-or-fallback step (lines 335-344): `JSON.parse(rawSummary)`,
falling back on a SyntaxError.  When `rawSummary` is `undefined` the builtin
receives the coerced string "undefined", which is never valid JSON, so the
fallback branch is taken. -/
def parseOrFallback (parse : String → Option Json) (raw : Option String) : Json :=
  match raw with
  | none => fallbackSummary none
  | some s =>
    match parse s with
    | some j => j
    | none => fallbackSummary (some s)

/-- Effects before any outbound call. -/
def noEffects : Effects :=
  { transcribeCalls := 0, completionCalls := 0, completionRequest := none, unlinked := false }

/-- Effects after the transcription call only. -/
def transcribedEffects : Effects :=
  { transcribeCalls := 1, completionCalls := 0, completionRequest := none, unlinked := false }

/-- Effects after both outbound calls, with the completion request recorded. -/
def completedEffects (creq : ChatRequest) (unlinked : Bool) : Effects :=
  { transcribeCalls := 1, completionCalls := 1, completionRequest := some creq, unlinked := unlinked }

/-- The `POST /api/transcribe-and-summarize` handler (lines 274-368 of the
source), as a pure function of the request and the environment.  Every throw
is routed to the catch block (`errorResponse`); `fs.unlinkSync` runs only
after `res.json` on the success path. -/
def handler (env : Env) (req : Request) : HandlerResult :=
  match req.file with
  | none =>
    -- `req.file.path` throws a TypeError before any outbound call
    { response := errorResponse
        { message := "Cannot read properties of undefined (reading path)", response := none }
    , effects := noEffects }
  | some _file =>
    -- `fs.readFileSync` then the transcription call
    match env.transcribe with
    | TranscribeOutcome.throw msg =>
      { response := errorResponse { message := msg, response := none }
      , effects := transcribedEffects }
    | TranscribeOutcome.ok text =>
      if textFalsy text then
        { response := errorResponse
            { message := "Transcription is empty or failed", response := none }
        , effects := transcribedEffects }
      else
        let transcriptText := text.getD ""
        let creq := chatRequest transcriptText
        match env.complete with
        | CompleteOutcome.transportError msg =>
          { response := errorResponse { message := msg, response := none }
          , effects := completedEffects creq false }
        | CompleteOutcome.httpError status body msg =>
          { response := errorResponse { message := msg, response := some (status, body) }
          , effects := completedEffects creq false }
        | CompleteOutcome.ok data =>
          match extractRawSummary data with
          | Except.error msg =>
            { response := errorResponse { message := msg, response := none }
            , effects := completedEffects creq false }
          | Except.ok raw =>
            { response :=
                { status := 200
                , body := Json.obj
                    [ ("transcript", Json.str transcriptText)
                    , ("summary", parseOrFallback env.parse raw) ] }
            , effects := completedEffects creq true }

/-- The `SummaryResult` shape: an object with both `key_points` and
`action_items` present as arrays. -/
def isSummaryShape (j : Json) : Bool :=
  match j.getField "key_points", j.getField "action_items" with
  | some (Json.arr _), some (Json.arr _) => true
  | _, _ => false

/-- Frontend: the recorded audio blob (opaque bytes). -/
structure AudioBlob where
  bytes : List Nat

/-- What `handleSubmit` does: the early-return alert, or a fetch carrying
the form field name and filename it appends. -/
inductive SubmitAction where
  | alertNoRecording
  | fetchRequest (field : String) (filename : String)

/-- Models `handleSubmit` (lines 57-95): with no blob it alerts and returns before
constructing the request; otherwise it posts FormData with field "audio". -/
def handleSubmit (audioBlob : Option AudioBlob) : SubmitAction :=
  match audioBlob with
  | none => SubmitAction.alertNoRecording
  | some _ => SubmitAction.fetchRequest "audio" "note.webm"

/-- Models the disabled prop of the submit button (line 160): loading or no audio blob. -/
def submitDisabled (loading : Bool) (audioBlob : Option AudioBlob) : Bool :=
  loading || audioBlob.isNone

/-! ### Concrete stubs used by witnesses and counterexamples -/

/-- A staged upload, as multer would attach it. -/
def fileStub : UploadedFile :=
  { path := "uploads/a1" }

/-- A request carrying the staged upload. -/
def reqStub : Request :=
  { file := some fileStub }

/-- Stub for the JSON.parse builtin that fails on every input; it agrees
with the builtin on every string it is applied to below, none of which is
valid JSON. -/
def parseFailStub : String → Option Json :=
  fun _ => none

/-- The parsed summary of the passthrough scenario in the spec. -/
def parsedStub : Json :=
  Json.obj [("key_points", Json.arr [Json.str "Buy milk"]),
            ("action_items", Json.arr [Json.str "Call Bob"])]

/-- Stub for the JSON.parse builtin that succeeds with `parsedStub`; it
agrees with the builtin on the one string it is applied to below, the JSON
text of `parsedStub`. -/
def parseOkStub : String → Option Json :=
  fun _ => some parsedStub

/-! ### Claims -/

/-- C1: for every completion text that is not valid JSON, the pipeline does
not fail the request: it returns a success result whose summary is exactly
an object with `key_points` holding the raw completion text as its single
element and `action_items` empty. -/
theorem parse_failure_degrades (env : Env) (req : Request) (f : UploadedFile)
    (t s : String) (cs : List Choice)
    (hf : req.file = some f)
    (ht : env.transcribe = TranscribeOutcome.ok (some t))
    (hne : t ≠ "")
    (hc : env.complete = CompleteOutcome.ok ⟨⟨some ⟨some s⟩⟩ :: cs⟩)
    (hp : env.parse s = none) :
    (handler env req).response.status = 200 ∧
    (handler env req).response.body =
      Json.obj [("transcript", Json.str t),
        ("summary", Json.obj [("key_points", Json.arr [Json.str s]),
                              ("action_items", Json.arr [])])] := by
  have hft : textFalsy (some t) = false := by simp [textFalsy, beq_iff_eq, hne]
  simp [handler, hf, ht, hc, hp, hft, extractRawSummary, parseOrFallback,
        fallbackSummary, rawJson]

/-- Witness for C1 at the non-JSON completion scenario of the spec. -/
theorem parse_failure_degrades_witness :
    (handler
        { parse := parseFailStub
        , transcribe := TranscribeOutcome.ok (some "Buy milk. Call Bob.")
        , complete := CompleteOutcome.ok ⟨[⟨some ⟨some "Sure! Here is your summary: ..."⟩⟩]⟩ }
        reqStub).response.status = 200 ∧
    (handler
        { parse := parseFailStub
        , transcribe := TranscribeOutcome.ok (some "Buy milk. Call Bob.")
        , complete := CompleteOutcome.ok ⟨[⟨some ⟨some "Sure! Here is your summary: ..."⟩⟩]⟩ }
        reqStub).response.body =
      Json.obj [("transcript", Json.str "Buy milk. Call Bob."),
        ("summary", Json.obj [("key_points", Json.arr [Json.str "Sure! Here is your summary: ..."]),
                              ("action_items", Json.arr [])])] :=
  parse_failure_degrades _ _ fileStub _ _ [] rfl rfl (by decide) rfl rfl

/-- C2: for every completion text that is valid JSON, the summary returned
to the caller equals the parsed object exactly, with no further
transformation or validation applied. -/
theorem parse_success_passthrough (env : Env) (req : Request) (f : UploadedFile)
    (t s : String) (j : Json) (cs : List Choice)
    (hf : req.file = some f)
    (ht : env.transcribe = TranscribeOutcome.ok (some t))
    (hne : t ≠ "")
    (hc : env.complete = CompleteOutcome.ok ⟨⟨some ⟨some s⟩⟩ :: cs⟩)
    (hp : env.parse s = some j) :
    (handler env req).response.status = 200 ∧
    (handler env req).response.body =
      Json.obj [("transcript", Json.str t), ("summary", j)] := by
  have hft : textFalsy (some t) = false := by simp [textFalsy, beq_iff_eq, hne]
  simp [handler, hf, ht, hc, hp, hft, extractRawSummary, parseOrFallback]

/-- Witness for C2 at the passthrough scenario of the spec. -/
theorem parse_success_passthrough_witness :
    (handler
        { parse := parseOkStub
        , transcribe := TranscribeOutcome.ok (some "Buy milk. Call Bob.")
        , complete := CompleteOutcome.ok
            ⟨[⟨some ⟨some "\x7b\x22key_points\x22:[\x22Buy milk\x22],\x22action_items\x22:[\x22Call Bob\x22]\x7d"⟩⟩]⟩ }
        reqStub).response.status = 200 ∧
    (handler
        { parse := parseOkStub
        , transcribe := TranscribeOutcome.ok (some "Buy milk. Call Bob.")
        , complete := CompleteOutcome.ok
            ⟨[⟨some ⟨some "\x7b\x22key_points\x22:[\x22Buy milk\x22],\x22action_items\x22:[\x22Call Bob\x22]\x7d"⟩⟩]⟩ }
        reqStub).response.body =
      Json.obj [("transcript", Json.str "Buy milk. Call Bob."), ("summary", parsedStub)] :=
  parse_success_passthrough _ _ fileStub _ _ parsedStub [] rfl rfl (by decide) rfl rfl

/-- C4: for every request whose transcription stage returns an empty or
missing transcript text, the request fails with the transcript-specific
error and the summarization stage is never invoked. -/
theorem empty_transcript_aborts (env : Env) (req : Request) (f : UploadedFile)
    (text : Option String)
    (hf : req.file = some f)
    (ht : env.transcribe = TranscribeOutcome.ok text)
    (hempty : textFalsy text = true) :
    (handler env req).response.status = 500 ∧
    (handler env req).response.body =
      Json.obj [("error", Json.str "Transcription is empty or failed")] ∧
    (handler env req).effects.completionCalls = 0 := by
  simp [handler, hf, ht, hempty, errorResponse, envelopeValue, transcribedEffects]

/-- Witness for C4 at the silent-clip scenario of the spec: the
transcription stub returns an empty text. -/
theorem empty_transcript_aborts_witness :
    (handler
        { parse := parseFailStub
        , transcribe := TranscribeOutcome.ok (some "")
        , complete := CompleteOutcome.ok ⟨[⟨some ⟨some "unreached"⟩⟩]⟩ }
        reqStub).response.status = 500 ∧
    (handler
        { parse := parseFailStub
        , transcribe := TranscribeOutcome.ok (some "")
        , complete := CompleteOutcome.ok ⟨[⟨some ⟨some "unreached"⟩⟩]⟩ }
        reqStub).response.body =
      Json.obj [("error", Json.str "Transcription is empty or failed")] ∧
    (handler
        { parse := parseFailStub
        , transcribe := TranscribeOutcome.ok (some "")
        , complete := CompleteOutcome.ok ⟨[⟨some ⟨some "unreached"⟩⟩]⟩ }
        reqStub).effects.completionCalls = 0 :=
  empty_transcript_aborts _ _ fileStub (some "") rfl rfl rfl

/-- C10: with no recorded audio blob, the frontend submit operation performs
no network request (it returns the early alert action), and the submit
button is disabled whenever the blob is absent or a request is in flight. -/
theorem no_blob_no_fetch :
    handleSubmit none = SubmitAction.alertNoRecording ∧
    (∀ loading : Bool, submitDisabled loading none = true) ∧
    (∀ blob : Option AudioBlob, submitDisabled true blob = true) := by
  refine ⟨rfl, fun loading => ?_, fun blob => ?_⟩ <;> simp [submitDisabled]

/-- Environment in which the completion provider returns an empty-string
completion content (message present, content present but empty). -/
def envEmptyContent : Env :=
  { parse := parseFailStub
  , transcribe := TranscribeOutcome.ok (some "hello world")
  , complete := CompleteOutcome.ok ⟨[⟨some ⟨some ""⟩⟩]⟩ }

/-- C3 counterexample: an empty completion content does NOT make the request
fail; the handler returns a 200 success carrying the degraded fallback
summary, contradicting the claimed hard failure. -/
theorem empty_completion_not_aborted :
    (handler envEmptyContent reqStub).response.status = 200 ∧
    (handler envEmptyContent reqStub).response.body =
      Json.obj [("transcript", Json.str "hello world"),
        ("summary", Json.obj [("key_points", Json.arr [Json.str ""]),
                              ("action_items", Json.arr [])])] :=
  ⟨rfl, rfl⟩

/-- C3 amended: a completion response with no first choice aborts the
request with a 500 error (the property access chain throws), but a
present-but-empty completion content does not abort: the request succeeds
with the degraded fallback summary holding the empty string. -/
theorem missing_or_empty_completion (env1 env2 : Env) (req : Request)
    (f : UploadedFile) (t : String)
    (hf : req.file = some f)
    (ht1 : env1.transcribe = TranscribeOutcome.ok (some t))
    (hne : t ≠ "")
    (hc1 : env1.complete = CompleteOutcome.ok ⟨[]⟩)
    (ht2 : env2.transcribe = TranscribeOutcome.ok (some t))
    (hc2 : env2.complete = CompleteOutcome.ok ⟨[⟨some ⟨some ""⟩⟩]⟩)
    (hp2 : env2.parse "" = none) :
    (handler env1 req).response.status = 500 ∧
    (handler env2 req).response.status = 200 ∧
    (handler env2 req).response.body =
      Json.obj [("transcript", Json.str t),
        ("summary", Json.obj [("key_points", Json.arr [Json.str ""]),
                              ("action_items", Json.arr [])])] := by
  have hft : textFalsy (some t) = false := by simp [textFalsy, beq_iff_eq, hne]
  refine ⟨?_, ?_, ?_⟩ <;>
    simp [handler, hf, ht1, hc1, ht2, hc2, hp2, hft, extractRawSummary,
          parseOrFallback, fallbackSummary, rawJson, errorResponse]

/-- Witness for the amended C3 at concrete environments. -/
theorem missing_or_empty_completion_witness :
    (handler
        { parse := parseFailStub
        , transcribe := TranscribeOutcome.ok (some "hello world")
        , complete := CompleteOutcome.ok ⟨[]⟩ }
        reqStub).response.status = 500 ∧
    (handler envEmptyContent reqStub).response.status = 200 ∧
    (handler envEmptyContent reqStub).response.body =
      Json.obj [("transcript", Json.str "hello world"),
        ("summary", Json.obj [("key_points", Json.arr [Json.str ""]),
                              ("action_items", Json.arr [])])] :=
  missing_or_empty_completion _ envEmptyContent _ fileStub _
    rfl rfl (by decide) rfl rfl rfl rfl

/-- Environment whose outbound capabilities are never reached. -/
def envUnused : Env :=
  { parse := parseFailStub
  , transcribe := TranscribeOutcome.throw "unreached"
  , complete := CompleteOutcome.transportError "unreached" }

/-- C5 counterexample: with the audio field absent the handler responds
with status 500, which is not a 4xx status, although it does make no
outbound call. -/
theorem missing_audio_status_is_500 :
    (handler envUnused { file := none }).response.status = 500 ∧
    ¬ (400 ≤ (handler envUnused { file := none }).response.status ∧
        (handler envUnused { file := none }).response.status < 500) ∧
    (handler envUnused { file := none }).effects.transcribeCalls = 0 ∧
    (handler envUnused { file := none }).effects.completionCalls = 0 :=
  ⟨rfl, by decide, rfl, rfl⟩

/-- C5 amended: for every request with the audio field absent, the handler
fails with the uniform 500 error response (not a 4xx) before any outbound
call is made: neither the transcription provider nor the completion
provider is invoked. -/
theorem missing_audio_no_outbound (env : Env) (req : Request)
    (hf : req.file = none) :
    (handler env req).response.status = 500 ∧
    (handler env req).effects.transcribeCalls = 0 ∧
    (handler env req).effects.completionCalls = 0 := by
  simp [handler, hf, errorResponse, noEffects]

/-- Witness for the amended C5 at a concrete request with no file. -/
theorem missing_audio_no_outbound_witness :
    (handler envUnused { file := none }).response.status = 500 ∧
    (handler envUnused { file := none }).effects.transcribeCalls = 0 ∧
    (handler envUnused { file := none }).effects.completionCalls = 0 :=
  missing_audio_no_outbound envUnused { file := none } rfl

/-- Environment in which transcription returns an empty text. -/
def envEmptyTranscript : Env :=
  { parse := parseFailStub
  , transcribe := TranscribeOutcome.ok (some "")
  , complete := CompleteOutcome.transportError "unreached" }

/-- Environment in which the completion call fails at the transport level. -/
def envTransportFail : Env :=
  { parse := parseFailStub
  , transcribe := TranscribeOutcome.ok (some "hello world")
  , complete := CompleteOutcome.transportError "connect ECONNREFUSED" }

/-- Environment in which the completion provider answers a non-success
HTTP status. -/
def envHttpFail : Env :=
  { parse := parseFailStub
  , transcribe := TranscribeOutcome.ok (some "hello world")
  , complete := CompleteOutcome.httpError 503 (Json.str "service unavailable")
      "Request failed with status code 503" }

/-- C6: the code deletes the staged temp file only after the success
response (fs.unlinkSync is placed after res.json); on the failure paths —
empty transcript, upstream transport error, upstream status error — the
request ends with a 500 response and the staged file is never removed,
while a successful run does remove it. -/
theorem staged_file_leaked_on_failure :
    (handler envEmptyTranscript reqStub).response.status = 500 ∧
    (handler envEmptyTranscript reqStub).effects.unlinked = false ∧
    (handler envTransportFail reqStub).response.status = 500 ∧
    (handler envTransportFail reqStub).effects.unlinked = false ∧
    (handler envHttpFail reqStub).response.status = 500 ∧
    (handler envHttpFail reqStub).effects.unlinked = false ∧
    (handler envEmptyContent reqStub).response.status = 200 ∧
    (handler envEmptyContent reqStub).effects.unlinked = true :=
  ⟨rfl, rfl, rfl, rfl, rfl, rfl, rfl, rfl⟩

/-- Stub for the JSON.parse builtin returning an empty array; it agrees
with the builtin on the one string it is applied to below, "[]". -/
def parseArrStub : String → Option Json :=
  fun _ => some (Json.arr [])

/-- Environment in which the completion text is valid JSON but not of the
SummaryResult shape. -/
def envWrongShape : Env :=
  { parse := parseArrStub
  , transcribe := TranscribeOutcome.ok (some "hello world")
  , complete := CompleteOutcome.ok ⟨[⟨some ⟨some "[]"⟩⟩]⟩ }

/-- C7 counterexample: a successful (200) response whose summary is the
parsed completion value `[]`, which is not of the SummaryResult shape
(neither `key_points` nor `action_items` is present). -/
theorem success_summary_wrong_shape :
    (handler envWrongShape reqStub).response.status = 200 ∧
    (handler envWrongShape reqStub).response.body.getField "summary" =
      some (Json.arr []) ∧
    isSummaryShape (Json.arr []) = false :=
  ⟨rfl, rfl, rfl⟩

/-- C7 amended: every successful (200) response carries a summary that is
either the value the completion text parsed to — used as-is, with no shape
validation, so it may be any JSON value — or the degraded fallback
`fallbackSummary`; the SummaryResult shape is guaranteed only for the
fallback branch. -/
theorem success_summary_parse_or_fallback (env : Env) (req : Request)
    (h : (handler env req).response.status = 200) :
    (∃ s j, env.parse s = some j ∧
        (handler env req).response.body.getField "summary" = some j) ∨
    (∃ raw, (handler env req).response.body.getField "summary" =
        some (fallbackSummary raw)) := by
  rcases req with ⟨file⟩
  cases file with
  | none => simp [handler, errorResponse] at h
  | some f =>
    cases htr : env.transcribe with
    | throw m => simp [handler, htr, errorResponse] at h
    | ok text =>
      cases hft : textFalsy text with
      | true => simp [handler, htr, hft, errorResponse] at h
      | false =>
        cases hc : env.complete with
        | transportError m => simp [handler, htr, hft, hc, errorResponse] at h
        | httpError st b m => simp [handler, htr, hft, hc, errorResponse] at h
        | ok data =>
          cases hex : extractRawSummary data with
          | error m => simp [handler, htr, hft, hc, hex, errorResponse] at h
          | ok raw =>
            cases raw with
            | none =>
              exact Or.inr ⟨none, by
                simp [handler, htr, hft, hc, hex, parseOrFallback,
                      Json.getField, List.lookup]⟩
            | some u =>
              cases hp : env.parse u with
              | none =>
                exact Or.inr ⟨some u, by
                  simp [handler, htr, hft, hc, hex, hp, parseOrFallback,
                        Json.getField, List.lookup]⟩
              | some j =>
                exact Or.inl ⟨u, j, hp, by
                  simp [handler, htr, hft, hc, hex, hp, parseOrFallback,
                        Json.getField, List.lookup]⟩

/-- Witness for the amended C7 at a concrete success run. -/
theorem success_summary_parse_or_fallback_witness :
    (∃ s j, envWrongShape.parse s = some j ∧
        (handler envWrongShape reqStub).response.body.getField "summary" = some j) ∨
    (∃ raw, (handler envWrongShape reqStub).response.body.getField "summary" =
        some (fallbackSummary raw)) :=
  success_summary_parse_or_fallback envWrongShape reqStub rfl

/-- C8: for every transcription text T of a valid non-empty audio input,
the summarization stage is invoked with exactly T — the completion request
holds the fixed model id, the fixed system prompt, and the user message
with T embedded unchanged between the fixed template head and tail — and
the success response carries T in its transcript field. -/
theorem transcript_passthrough (env : Env) (req : Request) (f : UploadedFile)
    (t : String) (data : CompletionData) (raw : Option String)
    (hf : req.file = some f)
    (ht : env.transcribe = TranscribeOutcome.ok (some t))
    (hne : t ≠ "")
    (hc : env.complete = CompleteOutcome.ok data)
    (hex : extractRawSummary data = Except.ok raw) :
    (handler env req).effects.completionRequest =
      some { model := "nex-agi/deepseek-v3.1-nex-n1:free"
           , messages :=
               [ { role := "system", content := systemPrompt }
               , { role := "user", content := promptHead ++ t ++ promptTail } ] } ∧
    (handler env req).response.body.getField "transcript" = some (Json.str t) := by
  have hft : textFalsy (some t) = false := by simp [textFalsy, beq_iff_eq, hne]
  simp [handler, hf, ht, hc, hex, hft, completedEffects, chatRequest,
        userPrompt, Json.getField, List.lookup]

/-- Witness for C8 at a concrete transcript. -/
theorem transcript_passthrough_witness :
    (handler envEmptyContent reqStub).effects.completionRequest =
      some { model := "nex-agi/deepseek-v3.1-nex-n1:free"
           , messages :=
               [ { role := "system", content := systemPrompt }
               , { role := "user"
                 , content := promptHead ++ "hello world" ++ promptTail } ] } ∧
    (handler envEmptyContent reqStub).response.body.getField "transcript" =
      some (Json.str "hello world") :=
  transcript_passthrough envEmptyContent reqStub fileStub "hello world"
    ⟨[⟨some ⟨some ""⟩⟩]⟩ (some "") rfl rfl (by decide) rfl rfl

/-- Environment in which the completion provider answers status 418 with a
diagnosable body. -/
def envTeapot : Env :=
  { parse := parseFailStub
  , transcribe := TranscribeOutcome.ok (some "hello world")
  , complete := CompleteOutcome.httpError 418 (Json.str "upstream body")
      "Request failed with status code 418" }

/-- C9 counterexample: on a non-success upstream status (418) the request
does fail, but the entire response is status 500 with body holding only the
upstream body — the raw upstream status 418 appears nowhere in the error
envelope returned to the caller, so it is not retrievable from it. -/
theorem upstream_status_not_in_envelope :
    (handler envTeapot reqStub).response.status = 500 ∧
    (handler envTeapot reqStub).response.body =
      Json.obj [("error", Json.str "upstream body")] :=
  ⟨rfl, rfl⟩

/-- C9 amended: for every run in which the completion provider responds
with a non-success HTTP status and a truthy body, the request fails with
status 500 and the error envelope carries the raw upstream body; the
upstream status itself is only logged server-side and is not part of the
envelope, whatever it was. -/
theorem upstream_http_error_body_only (env : Env) (req : Request)
    (f : UploadedFile) (t : String) (st : Nat) (body : Json) (m : String)
    (hf : req.file = some f)
    (ht : env.transcribe = TranscribeOutcome.ok (some t))
    (hne : t ≠ "")
    (hc : env.complete = CompleteOutcome.httpError st body m)
    (hbody : jsFalsy body = false) :
    (handler env req).response.status = 500 ∧
    (handler env req).response.body = Json.obj [("error", body)] := by
  have hft : textFalsy (some t) = false := by simp [textFalsy, beq_iff_eq, hne]
  simp [handler, hf, ht, hc, hft, hbody, errorResponse, envelopeValue]

/-- Witness for the amended C9 at the 418 environment. -/
theorem upstream_http_error_body_only_witness :
    (handler envTeapot reqStub).response.status = 500 ∧
    (handler envTeapot reqStub).response.body =
      Json.obj [("error", Json.str "upstream body")] :=
  upstream_http_error_body_only envTeapot reqStub fileStub "hello world"
    418 (Json.str "upstream body") "Request failed with status code 418"
    rfl rfl (by decide) rfl rfl

end VoiceNote
